import Mathlib

/-!
Verification of the cloudscraper-ts challenge-handling core.

This file shallowly embeds the challenge-handling state machine of the
repository (`src/main.ts` — shipped here under `tests copy/setup.ts` —, the
`Cloudflare` challenge handler and the JavaScript-interpreter factory from
`src/utils/stealth-mode.ts`, and the interpreter stubs) into Lean and proves
properties of the embedding.

Modelling conventions:
* JS strings are modelled as `String` / `List Char`; the specific regular
  expressions appearing in the source are modelled by dedicated scanning
  functions whose search order mirrors the leftmost / lazy / greedy semantics
  of the JS regex engine on the pattern in question.
* `try { ... } catch { return false }` around detector bodies is modelled by
  totalising the detectors: a response whose `data` is absent (`body = none`)
  makes `resp.data.toString()` throw in JS, so the embedded predicate returns
  `false` on that branch.
* Exceptions are modelled with an explicit error type `CfError`; `async` code
  is modelled as a state monad over `ScraperState` with an explicit fuel
  argument; running out of fuel yields the dedicated outcome `.hung`, which is
  also the image of the source's busy-wait loops that never terminate.
* Wall-clock time (`Date.now()`, `setTimeout`) is modelled by a millisecond
  counter `now` in the state that sleeping advances.
-/

namespace CloudscraperTs

/-! ### Character classes (JS `\s` / `\S`), restricted to the ASCII range that
occurs in the source patterns and inputs -/

def jsIsSpace (c : Char) : Bool :=
  c = ' ' || c = '\t' || c = '\n' || c = '\r' || c = '\x0b' || c = '\x0c'

def jsIsNonSpace (c : Char) : Bool := !(jsIsSpace c)

def isLineTerminator (c : Char) : Bool := c = '\n' || c = '\r'

/-! ### Generic scanning helpers used to model the source's regexes -/

/-- Split a character list at the first occurrence of the literal `lit`,
returning the part before the occurrence and the part after it.  This models
the lazy pattern `.*?LIT` (with the `s` flag, so the part before may contain
line terminators). -/
def splitAtLit (lit : List Char) : List Char → Option (List Char × List Char)
  | [] => if lit.isEmpty then some ([], []) else none
  | c :: rest =>
    if lit.isPrefixOf (c :: rest) then some ([], (c :: rest).drop lit.length)
    else (splitAtLit lit rest).map (fun p => (c :: p.1, p.2))

/-- Does `l` contain `lit` as a contiguous substring?  Models a regex that is
a pure literal (such as the block-code marker pattern). -/
def containsLit (lit : List Char) (l : List Char) : Bool :=
  (splitAtLit lit l).isSome

/-- Model of `.*?` without the `s` flag followed by a continuation: try the
continuation at every extension point, where the extension may not cross a
line terminator (JS `.` does not match `\n` or `\r`). -/
def dotStarThen (next : List Char → Bool) : List Char → Bool
  | [] => next []
  | c :: rest => next (c :: rest) || (!isLineTerminator c && dotStarThen next rest)

/-- Model of `\s*` followed by a continuation (existence semantics). -/
def spacesThen (next : List Char → Bool) : List Char → Bool
  | [] => next []
  | c :: rest => next (c :: rest) || (jsIsSpace c && spacesThen next rest)

/-- Model of `\S+` followed by a continuation (existence semantics: some
non-empty run of non-space characters after which the continuation holds). -/
def nonSpacePlusThen (next : List Char → Bool) : List Char → Bool
  | [] => false
  | c :: rest => jsIsNonSpace c && (next rest || nonSpacePlusThen next rest)

/-- Try a predicate at every suffix (unanchored regex search). -/
def searchFrom (p : List Char → Bool) : List Char → Bool
  | [] => p []
  | c :: rest => p (c :: rest) || searchFrom p rest

/-- `String.prototype.startsWith` on the character lists of the strings
(extensionally `String.isPrefixOf`, stated over `List Char` so that it
reduces inside the kernel). -/
def strStartsWith (p s : String) : Bool := p.data.isPrefixOf s.data

/-- `String.prototype.toLowerCase` for the ASCII names the factory compares
against. -/
def strToLower (s : String) : String := String.mk (s.data.map Char.toLower)

/-! ### Body-pattern matchers for the Challenge Detector

Each matcher corresponds to one regex in `Cloudflare` (stealth-mode.ts). -/

/-- `/\/cdn-cgi\/images\/trace\/jsch\//` (a pure literal). -/
def matchTraceJsch (b : String) : Bool :=
  containsLit "/cdn-cgi/images/trace/jsch/".data b.data

/-- `/\/cdn-cgi\/images\/trace\/(captcha|managed)\//` (an alternation of two
literals). -/
def matchTraceCaptcha (b : String) : Bool :=
  containsLit "/cdn-cgi/images/trace/captcha/".data b.data ||
  containsLit "/cdn-cgi/images/trace/managed/".data b.data

/-- `/<span class="cf-error-code">1020<\/span>/` (a pure literal). -/
def matchBlockCode1020 (b : String) : Bool :=
  containsLit "<span class=\"cf-error-code\">1020</span>".data b.data

/-- Continuation of the challenge-form pattern after `<form ` and the lazy
gap: `="challenge-form" action="\/\S+__cf_chl_f_tk=`. -/
def challengeFormTail (l : List Char) : Bool :=
  "=\"challenge-form\" action=\"/".data.isPrefixOf l &&
  nonSpacePlusThen (fun t => "__cf_chl_f_tk=".data.isPrefixOf t)
    (l.drop "=\"challenge-form\" action=\"/".data.length)

/-- `/<form .*?="challenge-form" action="\/\S+__cf_chl_f_tk=/` (no `s` flag,
so the lazy gap may not cross a line terminator). -/
def matchChallengeForm (b : String) : Bool :=
  searchFrom
    (fun l =>
      "<form ".data.isPrefixOf l &&
      dotStarThen challengeFormTail (l.drop "<form ".data.length))
    b.data

/-- Continuation shared by the two `cpo.src` patterns:
`\s*=\s*['"]\/cdn-cgi\/challenge-platform\/\S+` followed by the given
orchestrate literals. -/
def cpoSrcTail (markers : List (List Char)) (l : List Char) : Bool :=
  spacesThen
    (fun t =>
      match t with
      | '=' :: u =>
        spacesThen
          (fun v =>
            match v with
            | q :: w =>
              (q = '\'' || q = '"') &&
              "/cdn-cgi/challenge-platform/".data.isPrefixOf w &&
              nonSpacePlusThen
                (fun x => markers.any (fun m => m.isPrefixOf x))
                (w.drop "/cdn-cgi/challenge-platform/".data.length)
            | [] => false)
          u
      | _ => false)
    l

/-- `/cpo\.src\s*=\s*['"]\/cdn-cgi\/challenge-platform\/\S+orchestrate\/jsch\/v1/`. -/
def matchCpoSrcJsch (b : String) : Bool :=
  searchFrom
    (fun l =>
      "cpo.src".data.isPrefixOf l &&
      cpoSrcTail ["orchestrate/jsch/v1".data] (l.drop "cpo.src".data.length))
    b.data

/-- `/cpo\.src\s*=\s*['"]\/cdn-cgi\/challenge-platform\/\S+orchestrate\/(captcha|managed)\/v1/`. -/
def matchCpoSrcCaptcha (b : String) : Bool :=
  searchFrom
    (fun l =>
      "cpo.src".data.isPrefixOf l &&
      cpoSrcTail ["orchestrate/captcha/v1".data, "orchestrate/managed/v1".data]
        (l.drop "cpo.src".data.length))
    b.data

/-! ### Responses

An axios response as far as the challenge core inspects it.  `server` is
`headers['server']`, `location` is `headers.location` (axios lowercases header
names), `body` is `resp.data` (`none` models an absent/null `data`, on which
`resp.data.toString()` throws in JS).  `cfgMethod`/`cfgUrl` are
`resp.config.method` / `resp.config.url`, which axios copies from the request
that produced the response; the model's transport does the same. -/

structure Response where
  status : Nat
  server : Option String := none
  location : Option String := none
  body : Option String := none
  cfgMethod : String := ""
  cfgUrl : String := ""
deriving DecidableEq, Repr

/-- `resp.headers['server']?.startsWith('cloudflare')`, coerced to a boolean
(an absent header makes the whole `&&` chain falsy). -/
def serverIsCloudflare (r : Response) : Bool :=
  match r.server with
  | none => false
  | some s => strStartsWith "cloudflare" s

/-! ### The Detector predicates (`Cloudflare`, stealth-mode.ts 334-415) -/

/-- `Cloudflare.isIUAMChallenge`. -/
def isIUAMChallenge (r : Response) : Bool :=
  match r.body with
  | none => false
  | some b =>
    serverIsCloudflare r && (r.status = 429 || r.status = 503) &&
    matchTraceJsch b && matchChallengeForm b

/-- `Cloudflare.isCaptchaChallenge`. -/
def isCaptchaChallenge (r : Response) : Bool :=
  match r.body with
  | none => false
  | some b =>
    serverIsCloudflare r && r.status = 403 &&
    matchTraceCaptcha b && matchChallengeForm b

/-- `Cloudflare.isFirewallBlocked`. -/
def isFirewallBlocked (r : Response) : Bool :=
  match r.body with
  | none => false
  | some b => serverIsCloudflare r && r.status = 403 && matchBlockCode1020 b

/-- `Cloudflare.isNewIUAMChallenge`.  (When `isIUAMChallenge` is true the
body is present, so reading `resp.data` again cannot throw.) -/
def isNewIUAMChallenge (r : Response) : Bool :=
  isIUAMChallenge r &&
  (match r.body with
   | none => false
   | some b => matchCpoSrcJsch b)

/-- `Cloudflare.isNewCaptchaChallenge`. -/
def isNewCaptchaChallenge (r : Response) : Bool :=
  isCaptchaChallenge r &&
  (match r.body with
   | none => false
   | some b => matchCpoSrcCaptcha b)

/-! ### Errors (`src/exceptions.ts`)

Only the error classes that the embedded code can actually throw are
modelled.  `cloudflareLoopProtection` additionally carries, next to the
interpolated message, the depth value the source interpolates into it, so
that the reported attempt count is directly observable.  `genericError`
models plain `Error` / `TypeError` throws; `transportError` models a network
failure raised by the transport collaborator. -/

inductive CfError where
  | cloudflareCode1020 (msg : String)
  | cloudflareChallengeError (msg : String)
  | cloudflareIUAMError (msg : String)
  | cloudflareSolveError (msg : String)
  | cloudflareLoopProtection (msg : String) (attempts : Nat)
  | genericError (msg : String)
  | transportError (msg : String)
deriving DecidableEq, Repr

/-- Message of `CloudflareLoopProtection` as interpolated by
`handleCloudflareChallenges`. -/
def loopProtectionMsg (depth : Nat) : String :=
  "!!Loop Protection!! We have tried to solve " ++ toString depth ++
  " time(s) in a row."

/-! ### `Cloudflare.isChallengeRequest` (stealth-mode.ts 422-447)

The source throws on a firewall block or a newer challenge and returns a
boolean otherwise; the model returns `Except CfError Bool`. -/

def isChallengeRequest (r : Response) : Except CfError Bool :=
  if isFirewallBlocked r then
    .error (.cloudflareCode1020
      "Cloudflare has blocked this request (Code 1020 Detected).")
  else if isNewCaptchaChallenge r then
    .error (.cloudflareChallengeError
      "Detected a Cloudflare version 2 Captcha challenge, This feature is not available in the opensource (free) version.")
  else if isNewIUAMChallenge r then
    .error (.cloudflareChallengeError
      "Detected a Cloudflare version 2 challenge, This feature is not available in the opensource (free) version.")
  else if isCaptchaChallenge r || isIUAMChallenge r then
    .ok true
  else
    .ok false

/-! ### The JavaScript-interpreter factory and the interpreter stubs

`JavaScriptInterpreterFactory.createInterpreter` (stealth-mode.ts 880-895)
selects an implementation by lowercased name.  The `js2py`, `nodejs`, `v8`
and `chakracore` classes are stubs whose `solveChallenge` logs a console
warning and returns the string `'0'` (js2py-interpreter.ts 13-18,
v8-interpreter.ts 13-18, and the corresponding nodejs/chakracore files).
The `native` interpreter executes extracted JavaScript with `new Function`;
that execution engine is an external capability in this model
(`Env.nativeSolve` below), matching the spec's treatment of the JS evaluator
as a collaborator. -/

inductive Interpreter where
  | js2py
  | nodejs
  | v8engine
  | chakracore
  | native
deriving DecidableEq, Repr

/-- `JavaScriptInterpreterFactory.createInterpreter`: the switch on
`interpreterName.toLowerCase()` with `native` as the default branch. -/
def createInterpreter (interpreterName : String) : Interpreter :=
  if strToLower interpreterName = "js2py" then .js2py
  else if strToLower interpreterName = "nodejs" then .nodejs
  else if strToLower interpreterName = "v8" then .v8engine
  else if strToLower interpreterName = "chakracore" then .chakracore
  else .native

/-- `Js2PyInterpreter.solveChallenge`: the stub warns on the console and
resolves with the placeholder string `'0'`; it never rejects. -/
def js2pySolveChallenge (_body _domain : String) : Except CfError String :=
  .ok "0"

/-- `NodeJsInterpreter.solveChallenge` (stub, identical shape). -/
def nodejsSolveChallenge (_body _domain : String) : Except CfError String :=
  .ok "0"

/-- `V8Interpreter.solveChallenge` (stub, identical shape). -/
def v8SolveChallenge (_body _domain : String) : Except CfError String :=
  .ok "0"

/-- `ChakraCoreInterpreter.solveChallenge` (stub, identical shape). -/
def chakracoreSolveChallenge (_body _domain : String) : Except CfError String :=
  .ok "0"

/-! ### HTML-entity unescaping (`Cloudflare.unescape`, stealth-mode.ts
320-327): five sequential global replaces. -/

/-- One global, left-to-right, non-overlapping literal replacement
(`String.prototype.replace` with a `g`-flagged literal pattern), with an
explicit fuel bounded by the input length. -/
def replaceAllAux (lit repl : List Char) : Nat → List Char → List Char
  | 0, l => l
  | _ + 1, [] => []
  | fuel + 1, c :: rest =>
    if lit.isPrefixOf (c :: rest) ∧ lit ≠ [] then
      repl ++ replaceAllAux lit repl fuel ((c :: rest).drop lit.length)
    else
      c :: replaceAllAux lit repl fuel rest

def replaceAllL (lit repl l : List Char) : List Char :=
  replaceAllAux lit repl l.length l

/-- `Cloudflare.unescape`: `&lt; &gt; &quot; &#039; &amp;` in this order. -/
def Cloudflare.unescape (htmlText : String) : String :=
  String.mk
    (replaceAllL "&amp;".data "&".data
      (replaceAllL "&#039;".data "'".data
        (replaceAllL "&quot;".data "\"".data
          (replaceAllL "&gt;".data ">".data
            (replaceAllL "&lt;".data "<".data htmlText.data)))))

/-! ### URL handling

The source uses the WHATWG `new URL(...)` parser.  The model implements the
fragment of it that http(s) URLs of the form `scheme://host[:port]/path...`
exercise: `protocol` (including the trailing colon), `hostname` (without the
port) and the part from the first `/` on.  A string without `://` yields
`none`, modelling the `TypeError` thrown by `new URL`. -/

structure ParsedUrl where
  protocol : String
  hostname : String
  pathAndQuery : String
deriving DecidableEq, Repr

def parseUrl (u : String) : Option ParsedUrl :=
  match splitAtLit "://".data u.data with
  | none => none
  | some (scheme, rest) =>
    if scheme.isEmpty then none
    else
      let authority := rest.takeWhile (fun c => c ≠ '/' && c ≠ '?' && c ≠ '#')
      let tail := rest.drop authority.length
      let host := authority.takeWhile (fun c => c ≠ ':')
      some { protocol := String.mk (scheme ++ [':'])
             hostname := String.mk host
             pathAndQuery := String.mk tail }

/-- The scheme-and-host prefix (`${protocol}//${hostname}`) that the source
repeatedly assembles. -/
def ParsedUrl.origin (p : ParsedUrl) : String :=
  p.protocol ++ "//" ++ p.hostname

/-- Directory part of a path: everything up to and including the last `/`
(used for resolving a relative reference without a leading slash). -/
def dirnameOfPath (path : List Char) : List Char :=
  (path.reverse.dropWhile (fun c => c ≠ '/')).reverse

/-- `new URL(location, base).toString()` for the reference shapes a redirect
`Location` can take once `location.startsWith('http')` is excluded:
protocol-relative (`//…`), absolute-path (`/…`) and relative references.
Percent-encoding and path normalisation performed by WHATWG serialisation
are not modelled; the modelled URLs are already in canonical form. -/
def resolveUrl (location : String) (base : String) : Option String :=
  match parseUrl base with
  | none => none
  | some b =>
    if strStartsWith "//" location then some (b.protocol ++ location)
    else if strStartsWith "/" location then some (b.origin ++ location)
    else some (b.origin ++ String.mk (dirnameOfPath b.pathAndQuery.data) ++ location)

/-! ### Challenge-form extraction (`Cloudflare.iuamChallengeResponse`,
stealth-mode.ts 456-518)

The form regex (built with the `s` flag) is
`<form (.*?="challenge-form" action="(.*?__cf_chl_f_tk=\S+)"(.*?)</form>)`.
Group 1 is the whole form (used for input scanning), group 2 the action URL
(the "challenge UUID").  The matcher below reproduces the engine's
leftmost / lazy / greedy choices:
* the match starts at the first `<form ` for which the rest succeeds (if the
  continuation fails there it fails everywhere later, since all later search
  space is a suffix of the earlier one, so only the first start is tried);
* the gap before `="challenge-form" action="` is lazy (first occurrence);
* inside group 2 the gap before `__cf_chl_f_tk=` is lazy while `\S+` is
  greedy: the longest non-space run followed by a closing quote is preferred,
  backtracking to shorter runs and later `__cf_chl_f_tk=` occurrences if the
  rest of the pattern cannot match;
* group 3 is lazy (first `</form>`). -/

/-- All ways to split `l` as `run ++ '"' :: rest` with `run` consisting of
non-space characters, longest `run` first (the backtracking order of a
greedy `\S*` followed by `"`). -/
def nonSpaceQuoteSplits : List Char → List (List Char × List Char)
  | [] => []
  | c :: rest =>
    (if jsIsNonSpace c then
      (nonSpaceQuoteSplits rest).map (fun p => (c :: p.1, p.2))
     else []) ++
    (if c = '"' then [([], rest)] else [])

/-- First `some` produced by `f` along a list. -/
def firstSome (f : α → Option β) : List α → Option β
  | [] => none
  | a :: as => (f a).orElse (fun _ => firstSome f as)

/-- Match `(.*?__cf_chl_f_tk=\S+)"(.*?)</form>` against `l` (the text right
after `action="`), returning group 2 and group 3. -/
def tkGroupMatch : List Char → Option (List Char × List Char)
  | [] => none
  | c :: rest =>
    (if "__cf_chl_f_tk=".data.isPrefixOf (c :: rest) then
      match (c :: rest).drop "__cf_chl_f_tk=".data.length with
      | [] => none
      | d :: drest =>
        if jsIsNonSpace d then
          firstSome
            (fun p =>
              (splitAtLit "</form>".data p.2).map
                (fun q => ("__cf_chl_f_tk=".data ++ d :: p.1, q.1)))
            (nonSpaceQuoteSplits drest)
        else none
     else none).orElse
      (fun _ => (tkGroupMatch rest).map (fun r => (c :: r.1, r.2)))

/-- The extracted form: group 1 of the form regex (`form` in the source) and
group 2 (`challengeUUID`). -/
structure ExtractedForm where
  form : List Char
  challengeUUID : List Char
deriving DecidableEq, Repr

/-- `body.match(formRegex)`, reduced to the two used capture groups; `none`
models the `!formMatch` branch. -/
def extractForm (body : String) : Option ExtractedForm :=
  match splitAtLit "<form ".data body.data with
  | none => none
  | some (_, afterFormKw) =>
    match splitAtLit "=\"challenge-form\" action=\"".data afterFormKw with
    | none => none
    | some (gap, afterAction) =>
      match tkGroupMatch afterAction with
      | none => none
      | some (g2, g3) =>
        some { form := gap ++ "=\"challenge-form\" action=\"".data ++ g2 ++
                 '"' :: g3 ++ "</form>".data
               challengeUUID := g2 }

/-! Input scanning: `/<input\s(.*?)\/?>|<input(.*?)>/g` run over group 1 with
`exec` in a loop; for each match, `name="([^"]+)"` and `value="([^"]+)"` are
looked up in the captured attribute text, and the pair is kept only when the
name is in the allow-list `['r', 'jschl_vc', 'pass']`. -/

/-- Lazy body of the first input alternative: extend character by character
(no line terminators — the pattern has no `s` flag), stopping at the first
boundary where `\/?>` matches. -/
def inputAttrsSlash : List Char → Option (List Char × List Char)
  | [] => none
  | c :: rest =>
    if c = '>' then some ([], rest)
    else if c = '/' ∧ rest.head? = some '>' then some ([], rest.tail)
    else if isLineTerminator c then none
    else (inputAttrsSlash rest).map (fun p => (c :: p.1, p.2))

/-- Lazy body of the second input alternative: extend to the first `>`. -/
def inputAttrsPlain : List Char → Option (List Char × List Char)
  | [] => none
  | c :: rest =>
    if c = '>' then some ([], rest)
    else if isLineTerminator c then none
    else (inputAttrsPlain rest).map (fun p => (c :: p.1, p.2))

/-- One attempt of the input regex anchored at the current position: first
alternative `<input\s(.*?)\/?>`, then alternative `<input(.*?)>`.  Returns
the captured attribute text and the remainder after the whole match. -/
def matchInputAt (l : List Char) : Option (List Char × List Char) :=
  if "<input".data.isPrefixOf l then
    let r := l.drop "<input".data.length
    (match r with
     | c :: rest => if jsIsSpace c then inputAttrsSlash rest else none
     | [] => none).orElse
      (fun _ => inputAttrsPlain r)
  else none

/-- The `exec` loop: leftmost matches, resuming after each match.  Fuel is
the remaining length (every step consumes at least one character). -/
def scanInputsAux : Nat → List Char → List (List Char)
  | 0, _ => []
  | _ + 1, [] => []
  | fuel + 1, c :: rest =>
    match matchInputAt (c :: rest) with
    | some (g, after) => g :: scanInputsAux fuel after
    | none => scanInputsAux fuel rest

def scanInputs (l : List Char) : List (List Char) :=
  scanInputsAux l.length l

/-- First occurrence of `lit` followed by `([^"]+)"`; the greedy `[^"]+`
needs no backtracking (a shorter run cannot be followed by `"`), but a
failed tail does fall through to later occurrences of `lit`. -/
def attrCapture (lit : List Char) : List Char → Option (List Char)
  | [] => none
  | c :: rest =>
    (if lit.isPrefixOf (c :: rest) then
      let afterLit := (c :: rest).drop lit.length
      let run := afterLit.takeWhile (fun d => d ≠ '"')
      if run ≠ [] ∧ (afterLit.drop run.length).head? = some '"' then some run
      else none
     else none).orElse (fun _ => attrCapture lit rest)

/-- JS object insertion (`payload[name] = value`): overwrite an existing key
in place, otherwise append. -/
def setKV (m : List (String × String)) (k v : String) : List (String × String) :=
  if m.any (fun kv => kv.1 = k) then
    m.map (fun kv => if kv.1 = k then (k, v) else kv)
  else m ++ [(k, v)]

/-- The allow-list `['r', 'jschl_vc', 'pass']`. -/
def allowedInputNames : List String := ["r", "jschl_vc", "pass"]

/-- The input-collection loop of `iuamChallengeResponse`: for every scanned
input, keep `name → value` when both attributes are present and the name is
allow-listed. -/
def extractPayload (form : List Char) : List (String × String) :=
  (scanInputs form).foldl
    (fun payload input =>
      match attrCapture "name=\"".data input, attrCapture "value=\"".data input with
      | some n, some v =>
        if allowedInputNames.contains (String.mk n) then
          setKV payload (String.mk n) (String.mk v)
        else payload
      | _, _ => payload)
    []

/-! ### Request configuration

The request config as far as the challenge core reads or writes it.  Headers
and form data are JS objects, modelled as ordered key-value lists manipulated
through `setKV`. -/

structure Config where
  headers : List (String × String) := []
  formData : List (String × String) := []
  maxRedirects : Option Nat := none
  proxy : Option String := none
deriving DecidableEq, Repr

/-- `ChallengeResponse` (`types.ts`): submission URL plus form payload. -/
structure ChallengeResponse where
  url : String
  payload : List (String × String)
deriving DecidableEq, Repr

/-! ### External collaborators

Everything the spec declares out of scope is supplied through `Env`:
the HTTP transport (indexed by the number of transport calls already made,
covering both `performRequest` and the session-refresh probe, which share the
axios instance), the request pre/post hooks, the stealth decoration (which
only rewrites headers), the proxy selector and the `native` JS evaluator.
`requestPostHook` returns `some r` when the hook returned a response object
different from its argument (the source compares with `!==`). -/

structure Env where
  transport : Nat → Except CfError Response
  requestPreHook : Option (String → String → Config → String × String × Config) := none
  requestPostHook : Option (Response → Option Response) := none
  stealthDecorate : String → String → Config → Config := fun _ _ c => c
  getProxy : Option String := none
  nativeSolve : String → String → Except CfError String :=
    fun _ _ => .error (.genericError "native evaluator not provided")

/-- Dispatch `interpreter.solveChallenge(body, domain)` for the factory's
result; the four stub classes resolve with `'0'`, `native` delegates to the
external evaluator capability. -/
def solveWith (env : Env) : Interpreter → String → String → Except CfError String
  | .js2py, body, domain => js2pySolveChallenge body domain
  | .nodejs, body, domain => nodejsSolveChallenge body domain
  | .v8engine, body, domain => v8SolveChallenge body domain
  | .chakracore, body, domain => chakracoreSolveChallenge body domain
  | .native, body, domain => env.nativeSolve body domain

/-- Error-message text extracted for re-interpolation (`(error as Error).message`). -/
def CfError.message : CfError → String
  | .cloudflareCode1020 m => m
  | .cloudflareChallengeError m => m
  | .cloudflareIUAMError m => m
  | .cloudflareSolveError m => m
  | .cloudflareLoopProtection m _ => m
  | .genericError m => m
  | .transportError m => m

/-- `Cloudflare.iuamChallengeResponse` (stealth-mode.ts 456-518): extract the
challenge form, collect the allow-listed inputs, parse the URL, solve the
embedded JavaScript via the factory-selected interpreter, merge the answer
under `jschl_answer`, and build the absolute submission URL from the
original URL's scheme+host and the unescaped form action. -/
def iuamChallengeResponse (env : Env) (body url interpreter : String) :
    Except CfError ChallengeResponse :=
  match extractForm body with
  | none =>
    .error (.cloudflareIUAMError
      "Cloudflare IUAM detected, unfortunately we can't extract the parameters correctly.")
  | some ef =>
    let payload := extractPayload ef.form
    match parseUrl url with
    | none =>
      -- `new URL(url)` throws; the outer catch re-wraps it.
      .error (.cloudflareIUAMError "Failed to solve IUAM challenge: Invalid URL")
    | some pu =>
      match solveWith env (createInterpreter interpreter) body pu.hostname with
      | .error e =>
        .error (.cloudflareIUAMError
          ("Unable to parse Cloudflare anti-bots page: " ++ e.message))
      | .ok answer =>
        .ok { url := pu.protocol ++ "//" ++ pu.hostname ++
                Cloudflare.unescape (String.mk ef.challengeUUID)
              payload := setKV payload "jschl_answer" answer }

/-! ### Delay extraction (`challengeResponse`, stealth-mode.ts 559-574)

`/submit\(\);\r?\n\s*},\s*([0-9]+)/`: the captured digits are the delay in
milliseconds (the source divides by 1000 into seconds and multiplies by 1000
again when sleeping; the model keeps milliseconds throughout, which is the
same value — the float detour is not observable). -/

/-- Decimal value of a digit run (`parseFloat` on the captured digits). -/
def digitsToNat (l : List Char) : Nat :=
  l.foldl (fun n c => 10 * n + (c.toNat - '0'.toNat)) 0

/-- Tail after `submit();`: `\r?\n\s*},\s*([0-9]+)` (greedy digit capture). -/
def delayTail (l : List Char) : Option Nat :=
  let l := if l.head? = some '\r' then l.tail else l
  match l with
  | '\n' :: rest =>
    spacesThenCapture rest
  | _ => none
where
  spacesThenCapture : List Char → Option Nat
    | [] => none
    | c :: rest =>
      if "\x7d,".data.isPrefixOf (c :: rest) then
        afterBrace ((c :: rest).drop 2)
      else if jsIsSpace c then spacesThenCapture rest
      else none
  afterBrace : List Char → Option Nat
    | [] => none
    | c :: rest =>
      if c.isDigit then
        some (digitsToNat (c :: rest.takeWhile Char.isDigit))
      else if jsIsSpace c then afterBrace rest
      else none

/-- Leftmost match of the delay pattern over the body. -/
def extractDelay (b : String) : Option Nat :=
  go b.data
where
  go : List Char → Option Nat
    | [] => none
    | c :: rest =>
      (if "submit();".data.isPrefixOf (c :: rest) then
        delayTail ((c :: rest).drop "submit();".data.length)
       else none).orElse (fun _ => go rest)

/-! ### The Orchestrator state (`CloudScraper`, main.ts)

Constructor options and mutable session fields are flattened into one record.
Fields `transportCalls`, `dispatchLog`, `solveAttempts` and `refreshAttempts`
are instrumentation of the external collaborators (how often and with what
arguments the transport was invoked, how often a challenge resolution was
started, how often `_refreshSession` ran); they are write-only ghost fields
that no embedded branch reads.

Cosmetic state the claims never observe is reduced to what the control flow
needs: TLS-cipher rotation keeps only `_cipherRotationCount` (the cipher
strings live in the user-agent collaborator), the cookie jar, user-agent and
header tables live in external collaborators, and `decodeBrotli` is the
identity because every modelled response already carries text. -/

structure DispatchRecord where
  method : String
  url : String
  config : Config
deriving DecidableEq, Repr

structure ScraperState where
  -- constructor options
  disableCloudflareV1 : Bool := false
  doubleDown : Bool := true
  interpreter : String := "js2py"
  captchaProvider : Option String := none
  solveDepth : Nat := 3
  sessionRefreshInterval : Nat := 3600      -- seconds
  autoRefreshOn403 : Bool := true
  max403Retries : Nat := 3
  minRequestInterval : Nat := 1             -- seconds
  maxConcurrentRequests : Nat := 1
  rotateTlsCiphers : Bool := true
  enableStealth : Bool := true
  -- mutable session state
  delay : Option Nat := none                -- milliseconds (see `extractDelay`)
  solveDepthCnt : Nat := 0
  sessionStartTime : Nat := 0
  requestCount : Nat := 0
  last403Time : Nat := 0
  retry403Count : Nat := 0                  -- `_403RetryCount`
  in403Retry : Bool := false                -- `_in403RetryFlag`
  lastRequestTime : Nat := 0
  currentConcurrentRequests : Nat := 0
  cipherRotationCount : Nat := 0            -- `_cipherRotationCount`
  -- model clock (`Date.now()`, milliseconds)
  now : Nat := 0
  -- instrumentation (not part of the source state)
  transportCalls : Nat := 0
  dispatchLog : List DispatchRecord := []
  solveAttempts : Nat := 0
  refreshAttempts : Nat := 0
deriving DecidableEq, Repr

/-- Result of an async computation: a value, a thrown error, or a
computation that never finished (busy-wait / fuel exhaustion). -/
inductive Outcome (α : Type) where
  | ok (a : α)
  | err (e : CfError)
  | hung
deriving DecidableEq, Repr

/-- The effect monad of the embedding: state passing with exceptions and an
explicit divergence outcome.  The state is returned in every case so that the
instrumentation fields stay observable. -/
def M (α : Type) := ScraperState → Outcome α × ScraperState

def M.pure (a : α) : M α := fun s => (.ok a, s)

def M.bind (x : M α) (f : α → M β) : M β := fun s =>
  match x s with
  | (.ok a, s) => f a s
  | (.err e, s) => (.err e, s)
  | (.hung, s) => (.hung, s)

instance : Monad M where
  pure := M.pure
  bind := M.bind

def M.get : M ScraperState := fun s => (.ok s, s)

def M.set (s : ScraperState) : M Unit := fun _ => (.ok (), s)

def M.modify (f : ScraperState → ScraperState) : M Unit := fun s => (.ok (), f s)

def M.throw (e : CfError) : M α := fun s => (.err e, s)

def M.hung : M α := fun s => (.hung, s)

/-- `try x catch (e) h e` — `.hung` is not catchable (the computation never
reaches the handler). -/
def M.onErr (x : M α) (h : CfError → M α) : M α := fun s =>
  match x s with
  | (.err e, s) => h e s
  | r => r

/-- `try x finally fin` — the finaliser runs on normal completion and on a
thrown error, not on divergence. -/
def M.withFinal (x : M α) (fin : M Unit) : M α := fun s =>
  match x s with
  | (.ok a, s) =>
    (match fin s with
     | (.ok _, s) => (.ok a, s)
     | (.err e, s) => (.err e, s)
     | (.hung, s) => (.hung, s))
  | (.err e, s) =>
    (match fin s with
     | (.ok _, s) => (.err e, s)
     | (.err e2, s) => (.err e2, s)
     | (.hung, s) => (.hung, s))
  | (.hung, s) => (.hung, s)

/-- `await new Promise(resolve => setTimeout(resolve, ms))`. -/
def M.sleep (ms : Nat) : M Unit := fun s => (.ok (), { s with now := s.now + ms })

/-- Guarded decrement `if (this.currentConcurrentRequests > 0) this.currentConcurrentRequests--`. -/
def decrementConcurrent (s : ScraperState) : ScraperState :=
  if s.currentConcurrentRequests > 0 then
    { s with currentConcurrentRequests := s.currentConcurrentRequests - 1 }
  else s

/-- One transport invocation through the shared axios instance: consume the
next oracle answer, record the dispatch, and stamp the request's
method/url into the response config (axios behaviour). -/
def transportCall (env : Env) (method url : String) (cfg : Config) : M Response :=
  fun s =>
    let n := s.transportCalls
    let s := { s with
      transportCalls := n + 1
      dispatchLog := { method := method, url := url, config := cfg } :: s.dispatchLog }
    match env.transport n with
    | .error e => (.err e, s)
    | .ok r => (.ok { r with cfgMethod := method, cfgUrl := url }, s)

/-- The concurrency gate of `_applyRequestThrottling`:
`while (currentConcurrentRequests >= maxConcurrentRequests) await sleep(100)`.
Within one logical request nothing else runs on the event loop, so once
entered with a saturated counter the loop spins forever; the fuel only bounds
how many polls the model unrolls. -/
def gateWait (fuel : Nat) : M Unit :=
  Nat.rec (motive := fun _ => M Unit)
    (fun s =>
      if s.currentConcurrentRequests ≥ s.maxConcurrentRequests then (.hung, s)
      else (.ok (), s))
    (fun _ ih s =>
      if s.currentConcurrentRequests ≥ s.maxConcurrentRequests then
        ih { s with now := s.now + 100 }
      else (.ok (), s))
    fuel

/-- `_applyRequestThrottling` (main.ts 1085-1107): minimum-interval sleep,
then the concurrency gate, then `lastRequestTime = Date.now()`. -/
def applyRequestThrottling (fuel : Nat) : M Unit := do
  let s ← M.get
  if s.now - s.lastRequestTime < s.minRequestInterval * 1000 then
    M.set { s with now := s.lastRequestTime + s.minRequestInterval * 1000 }
  gateWait fuel
  M.modify fun s => { s with lastRequestTime := s.now }

/-- `_rotateTlsCipherSuite` (main.ts 1112-1157): the cipher strings live in
the user-agent collaborator; the observable state change is the rotation
counter. -/
def rotateTlsCipherSuite : M Unit :=
  M.modify fun s => { s with cipherRotationCount := s.cipherRotationCount + 1 }

/-- `_shouldRefreshSession` (main.ts 955-970). -/
def shouldRefreshSession (s : ScraperState) : Bool :=
  (s.now - s.sessionStartTime > s.sessionRefreshInterval * 1000) ||
  (s.last403Time > 0 && s.now - s.last403Time < 60000)

/-- `_refreshSession` (main.ts 977-1037): clear the anti-bot cookies (cookie
jar is external), reset the session tracking, regenerate the user agent
(external), then probe `protocol//hostname` through axios; success iff the
probe status is in {200, 301, 302, 304}.  Any throw — URL parsing or the
probe itself — degrades to `false`. -/
def refreshSession (env : Env) (url : String) : M Bool := do
  M.modify fun s => { s with
    refreshAttempts := s.refreshAttempts + 1
    sessionStartTime := s.now
    requestCount := 0 }
  match parseUrl url with
  | none => M.pure false
  | some pu =>
    M.onErr
      (do
        let testResponse ← transportCall env "GET" (pu.protocol ++ "//" ++ pu.hostname) {}
        M.pure ([200, 301, 302, 304].contains testResponse.status))
      (fun _ => M.pure false)

/-- Truthiness of `response.headers.location` (an empty string is falsy). -/
def locationTruthy (r : Response) : Bool :=
  match r.location with
  | none => false
  | some l => l ≠ ""

/-- Call descriptors for the mutually recursive async methods; the single
fuel-indexed interpreter `run` below ties the knot. -/
inductive Call where
  | request (method url : String) (cfg : Config)
  | handleChallenges (resp : Response) (method url : String) (cfg : Config)
  | challengeRespond (resp : Response) (cfg : Config)
  | handle403 (resp : Response) (method url : String) (cfg : Config)

/-- Captcha tail of `challengeResponse`: the provider checks performed after
the double-down attempt (or instead of it). -/
def captchaTail (resp : Response) (provider : Option String) : M Response :=
  match provider with
  | none =>
    M.throw (.genericError
      "Cloudflare Captcha detected, unfortunately you haven't loaded an anti Captcha provider correctly via the 'captcha' parameter.")
  | some p =>
    if p = "return_response" then M.pure resp
    else M.throw (.genericError "Captcha challenge handling not implemented yet")

/-- One layer of the Orchestrator: `CloudScraper.request`,
`handleCloudflareChallenges`, `_handle403Error` and
`Cloudflare.challengeResponse`, with every nested method call routed through
`recur` (tied by `run` below).  `gateFuel` bounds how many polls of the
concurrency busy-wait are unrolled. -/
def runStep (env : Env) (gateFuel : Nat) (recur : Call → M Response) :
    Call → M Response
  | .request method url cfg => do
    -- `request` (main.ts 703-787)
    applyRequestThrottling gateFuel
    let s ← M.get
    if s.rotateTlsCiphers then rotateTlsCipherSuite
    let s ← M.get
    if shouldRefreshSession s then
      -- the boolean result is discarded here
      discard (refreshSession env url)
    let s ← M.get
    -- proxy selection when none explicit (collaborator)
    let cfg := if cfg.proxy = none ∧ env.getProxy ≠ none then
        { cfg with proxy := env.getProxy }
      else cfg
    -- stealth decoration (collaborator; rewrites headers only)
    let cfg := if s.enableStealth then env.stealthDecorate method url cfg else cfg
    M.modify fun s => { s with
      requestCount := s.requestCount + 1
      currentConcurrentRequests := s.currentConcurrentRequests + 1 }
    let (method, url, cfg) :=
      match env.requestPreHook with
      | some h => h method url cfg
      | none => (method, url, cfg)
    M.onErr
      (do
        let response ← transportCall env method url cfg
        -- (decodeBrotli: identity — responses carry text already)
        match env.requestPostHook with
        | some h =>
          (match h response with
           | some newResponse =>
             -- the hook replaced the response: returned as-is, with no
             -- challenge handling and no counter decrement
             M.pure newResponse
           | none => recur (.handleChallenges response method url cfg))
        | none => recur (.handleChallenges response method url cfg))
      (fun e => do
        -- proxy failure reporting happens here (collaborator)
        M.modify decrementConcurrent
        M.throw e)
  | .handleChallenges response method url cfg => do
    -- `handleCloudflareChallenges` (main.ts 820-870)
    let s ← M.get
    if s.solveDepthCnt ≥ s.solveDepth then
      let depth := s.solveDepthCnt
      M.set { s with solveDepthCnt := 0 }
      M.throw (.cloudflareLoopProtection (loopProtectionMsg depth) depth)
    else do
      let challenge ←
        if s.disableCloudflareV1 then M.pure false
        else
          match isChallengeRequest response with
          | .error e => M.throw e
          | .ok b => M.pure b
      if challenge then do
        M.modify fun s => { s with
          solveDepthCnt := s.solveDepthCnt + 1
          solveAttempts := s.solveAttempts + 1 }
        recur (.challengeRespond response cfg)
      else do
        M.modify fun s =>
          if ¬locationTruthy response ∧ response.status ≠ 429 ∧
              response.status ≠ 503 then
            let s := { s with solveDepthCnt := 0 }
            if response.status = 200 ∧ ¬s.in403Retry then
              { s with retry403Count := 0 }
            else s
          else s
        let s ← M.get
        if response.status = 403 ∧ s.autoRefreshOn403 then
          recur (.handle403 response method url cfg)
        else do
          M.modify decrementConcurrent
          M.pure response
  | .handle403 response method url cfg => do
    -- `_handle403Error` (main.ts 894-949)
    let s ← M.get
    if s.retry403Count < s.max403Retries then do
      M.set { s with
        retry403Count := s.retry403Count + 1
        last403Time := s.now }
      let refreshSuccess ← refreshSession env url
      if refreshSuccess then do
        M.modify fun s => { s with in403Retry := true }
        M.withFinal
          (do
            let retryResponse ← recur (.request method url cfg)
            if retryResponse.status = 200 then
              M.modify fun s => { s with retry403Count := 0 }
            M.pure retryResponse)
          (M.modify fun s => { s with in403Retry := false })
      else do
        M.modify decrementConcurrent
        M.pure response
    else do
      M.modify decrementConcurrent
      M.pure response
  | .challengeRespond resp cfg => do
    -- `Cloudflare.challengeResponse` (stealth-mode.ts 526-651)
    if isCaptchaChallenge resp then do
      let s ← M.get
      if s.doubleDown then do
        let ddMethod := if resp.cfgMethod = "" then "GET" else resp.cfgMethod
        let doubleDownResp ← recur (.request ddMethod resp.cfgUrl cfg)
        if ¬isCaptchaChallenge doubleDownResp then M.pure doubleDownResp
        else captchaTail resp s.captchaProvider
      else captchaTail resp s.captchaProvider
    else do
      -- IUAM branch
      let s ← M.get
      if s.delay.getD 0 = 0 then
        -- `if (!this.scraper.delay)`: null and 0 are both falsy
        match resp.body with
        | none =>
          -- `resp.data.toString()` throws; the catch rethrows this error
          M.throw (.cloudflareIUAMError
            "Cloudflare IUAM possibility malformed, issue extracting delay value.")
        | some b =>
          match extractDelay b with
          | some d => M.modify fun s => { s with delay := some d }
          | none => M.pure ()
      let s ← M.get
      M.sleep (s.delay.getD 0)
      match resp.body with
      | none => M.throw (.genericError "TypeError: resp.data is not defined")
      | some responseData =>
        match iuamChallengeResponse env responseData resp.cfgUrl s.interpreter with
        | .error e => M.throw e
        | .ok submitUrl =>
          -- `if (submitUrl)`: the resolved object is always truthy, so the
          -- fallback re-request on line 649 is unreachable
          match parseUrl resp.cfgUrl with
          | none => M.throw (.genericError "TypeError: Invalid URL")
          | some pu =>
            let challengeConfig := { cfg with
              headers := setKV (setKV cfg.headers "Origin" pu.origin)
                "Referer" resp.cfgUrl
              formData := submitUrl.payload
              maxRedirects := some 0 }
            let challengeResponse ←
              recur (.request "POST" submitUrl.url challengeConfig)
            if challengeResponse.status = 400 then
              M.throw (.cloudflareSolveError
                "Invalid challenge answer detected, Cloudflare broken?")
            else
              if locationTruthy challengeResponse then do
                let location := (challengeResponse.location).getD ""
                let redirectConfig := { cfg with
                  headers := setKV cfg.headers "Referer" challengeResponse.cfgUrl }
                let redirectLocation ←
                  if strStartsWith "http" location then M.pure location
                  else
                    match resolveUrl location submitUrl.url with
                    | some r => M.pure r
                    | none => M.throw (.genericError "TypeError: Invalid URL")
                recur (.request resp.cfgMethod redirectLocation redirectConfig)
              else M.pure challengeResponse

/-- The Orchestrator with an explicit fuel: at fuel `n + 1` one `runStep`
layer is unfolded with gate fuel `n` and recursion at fuel `n`; at fuel `0`
the computation is reported as unfinished.  (`Nat.rec` keeps kernel
reduction to plain iota steps.) -/
def run (env : Env) (fuel : Nat) : Call → M Response :=
  Nat.rec (motive := fun _ => Call → M Response)
    (fun _ => M.hung)
    (fun n ih => runStep env n ih)
    fuel

/-! ### Cookie-string serialisation (`getCookieString`, main.ts 1237-1246)

`getCookieString` maps the token object returned by `getTokens` through
``Object.entries(tokens).map(([key, value]) => `${key}=${value}`).join('; ')``.
The token object is modelled as an ordered association list (the insertion
order of a JS object). -/

/-- `Array.prototype.join('; ')` over character lists. -/
def joinSemiSpace : List (List Char) → List Char
  | [] => []
  | [p] => p
  | p :: ps => p ++ ';' :: ' ' :: joinSemiSpace ps

/-- The serialisation performed by `getCookieString` on the map returned by
`getTokens`. -/
def getCookieStringOfTokens (tokens : List (String × String)) : String :=
  String.mk (joinSemiSpace (tokens.map fun kv => kv.1.data ++ '=' :: kv.2.data))

/-- `String.prototype.split('; ')` (leftmost, non-overlapping). -/
def splitSemiSpace : List Char → List (List Char)
  | [] => [[]]
  | [c] => [[c]]
  | c :: d :: rest =>
    if c = ';' ∧ d = ' ' then [] :: splitSemiSpace rest
    else
      match splitSemiSpace (d :: rest) with
      | [] => [[c]]
      | p :: ps => (c :: p) :: ps

/-- `String.prototype.split('=')`. -/
def splitEq : List Char → List (List Char)
  | [] => [[]]
  | c :: rest =>
    if c = '=' then [] :: splitEq rest
    else
      match splitEq rest with
      | [] => [[c]]
      | p :: ps => (c :: p) :: ps

/-- The reconstruction procedure stated by the round-trip property: split the
serialised cookie header on `"; "` and then each piece on `"="`. -/
def reconstructCookies (s : String) : List (List String) :=
  (splitSemiSpace s.data).map (fun piece => (splitEq piece).map String.mk)

/-- A token map rendered in the shape the reconstruction produces when each
piece splits into exactly its key and value. -/
def tokensAsSplit (tokens : List (String × String)) : List (List String) :=
  tokens.map fun kv => [kv.1, kv.2]

/-! ### Concrete scenario fixtures

A minimal legacy-JS challenge page that satisfies the detector patterns and
the extraction regex, together with the transports and states the testable
properties describe. -/

def pageUrl : String := "https://example.com/page"

def fixtureBody : String :=
  "<html>/cdn-cgi/images/trace/jsch/x\n" ++
  "<form class=\"challenge-form\" action=\"/fight?__cf_chl_f_tk=tok123\" method=\"POST\">\n" ++
  "<input type=\"hidden\" name=\"r\" value=\"rv\"/>\n" ++
  "<input type=\"hidden\" name=\"jschl_vc\" value=\"vcv\"/>\n" ++
  "<input type=\"hidden\" name=\"pass\" value=\"pv\"/>\n" ++
  "<input type=\"hidden\" name=\"other\" value=\"x\"/>\n" ++
  "</form></html>"

/-- A legacy-JS challenge response (status 503 from cloudflare). -/
def challengeResp : Response :=
  { status := 503, server := some "cloudflare", body := some fixtureBody }

/-- A plain success response from a non-Cloudflare server. -/
def plain200 : Response :=
  { status := 200, server := some "nginx", body := some "<html>ok</html>" }

/-- A plain 403 from a non-Cloudflare server (no challenge markers). -/
def resp403 : Response :=
  { status := 403, server := some "nginx", body := some "denied" }

/-- A 400 answer-rejection response to a challenge resubmission. -/
def resp400 : Response :=
  { status := 400, server := some "nginx", body := some "" }

/-- A redirect answer to a challenge resubmission. -/
def resp302 : Response :=
  { status := 302, server := some "nginx", location := some "/next", body := some "" }

/-- A firewall-block page: status 403 from cloudflare whose body carries the
1020 block-code marker next to captcha markers (so that priority over the
other detections is visible). -/
def fwBody : String :=
  "<html><span class=\"cf-error-code\">1020</span>\n" ++
  "/cdn-cgi/images/trace/captcha/x\n" ++
  "<form class=\"challenge-form\" action=\"/f?__cf_chl_f_tk=t\"></form></html>"

def fwResp : Response :=
  { status := 403, server := some "cloudflare", body := some fwBody }

/-- The submission URL the Resolver computes for `fixtureBody` at `pageUrl`. -/
def submitUrlStr : String := "https://example.com/fight?__cf_chl_f_tk=tok123"

/-- The payload the Resolver computes for `fixtureBody` with the default
`js2py` stub interpreter. -/
def fixturePayload : List (String × String) :=
  [("r", "rv"), ("jschl_vc", "vcv"), ("pass", "pv"), ("jschl_answer", "0")]

/-- The resubmission config the Orchestrator builds from an empty original
config for `challengeResp` obtained at `pageUrl`. -/
def challengeCfg : Config :=
  { headers := [("Origin", "https://example.com"), ("Referer", pageUrl)]
    formData := fixturePayload
    maxRedirects := some 0 }

/-- Transport that serves the firewall-block page. -/
def envFirewall : Env := { transport := fun _ => .ok fwResp }

/-- Transport that serves the legacy-JS challenge on every call. -/
def envChallengeOnly : Env := { transport := fun _ => .ok challengeResp }

/-- Transport that serves 403 on every call, the refresh probe included. -/
def env403Only : Env := { transport := fun _ => .ok resp403 }

/-- Transport: challenge first, then a plain 200 without a Location header. -/
def envChallengeThen200 : Env :=
  { transport := fun n => if n = 0 then .ok challengeResp else .ok plain200 }

/-- Transport: challenge first, then a 400 on the resubmission. -/
def envChallengeThen400 : Env :=
  { transport := fun n => if n = 0 then .ok challengeResp else .ok resp400 }

/-- Transport: challenge, then a redirect on the resubmission, then 200. -/
def envChallengeThen302 : Env :=
  { transport := fun n =>
      if n = 0 then .ok challengeResp
      else if n = 1 then .ok resp302
      else .ok plain200 }

/-- The top-level logical request of the scenarios. -/
def reqGET : Call := .request "GET" pageUrl {}

/-- The first dispatch record of the scenarios. -/
def dispatchGET : DispatchRecord := { method := "GET", url := pageUrl, config := {} }

/-- State of the default-configured Orchestrator when the nested resubmission
request of the always-challenge scenario starts: one slot of the concurrency
gate is held by the outer request. -/
def stNested : ScraperState :=
  { solveDepthCnt := 1
    requestCount := 1
    lastRequestTime := 1000
    currentConcurrentRequests := 1
    cipherRotationCount := 1
    now := 1000
    transportCalls := 1
    dispatchLog := [dispatchGET]
    solveAttempts := 1 }

/-- `stNested` after the minimum-interval sleep of the nested request, at the
entry of the concurrency busy-wait. -/
def stAtGate : ScraperState := { stNested with now := 2000 }

/-- The state in which the always-challenge scenario is spinning after `n`
polls of the busy-wait. -/
def stSpinning (n : Nat) : ScraperState := { stAtGate with now := 2000 + 100 * n }

/-- The nested resubmission request of the challenge scenarios. -/
def rqPOST : Call := .request "POST" submitUrlStr challengeCfg

/-- Defaults with room for one nested request on the concurrency gate. -/
def stMaxCc2 : ScraperState := { maxConcurrentRequests := 2 }

/-- Defaults with `max403Retries = 2` (the 403-retry scenario). -/
def stRetry2 : ScraperState := { max403Retries := 2 }

/-- A response with every challenge marker in the body but a non-Cloudflare
server header (used to exercise the server guard). -/
def nonCfMarkers : Response :=
  { status := 403
    server := some "nginx"
    body := some (fwBody ++ fixtureBody) }

/-- A response with no body at all (axios `data` undefined), adversarial
otherwise. -/
def noBodyResp : Response :=
  { status := 503, server := some "cloudflare", body := none }

/-- Group 1 of the form regex on `fixtureBody` (the whole challenge form). -/
def fixtureFormGroup : String :=
  "class=\"challenge-form\" action=\"/fight?__cf_chl_f_tk=tok123\" method=\"POST\">\n" ++
  "<input type=\"hidden\" name=\"r\" value=\"rv\"/>\n" ++
  "<input type=\"hidden\" name=\"jschl_vc\" value=\"vcv\"/>\n" ++
  "<input type=\"hidden\" name=\"pass\" value=\"pv\"/>\n" ++
  "<input type=\"hidden\" name=\"other\" value=\"x\"/>\n" ++
  "</form>"

/-- The extraction result on `fixtureBody`. -/
def fixtureExtracted : ExtractedForm :=
  { form := fixtureFormGroup.data
    challengeUUID := "/fight?__cf_chl_f_tk=tok123".data }

/-- `new URL(pageUrl)` in the model. -/
def pageParsed : ParsedUrl :=
  { protocol := "https:", hostname := "example.com", pathAndQuery := "/page" }

/-- Defaults with a concurrency ceiling high enough that every nested
resubmission request can pass the gate. -/
def stMaxCc4 : ScraperState := { maxConcurrentRequests := 4 }

/-! ## Theorems -/

/-! ### Unfolding equations for the fuelled interpreter -/

theorem run_zero (env : Env) (c : Call) : run env 0 c = M.hung := rfl

theorem run_succ (env : Env) (n : Nat) (c : Call) :
    run env (n + 1) c = runStep env n (run env n) c := rfl

theorem gateWait_zero (s : ScraperState) :
    gateWait 0 s =
      if s.currentConcurrentRequests ≥ s.maxConcurrentRequests then (.hung, s)
      else (.ok (), s) := rfl

theorem gateWait_succ (n : Nat) (s : ScraperState) :
    gateWait (n + 1) s =
      if s.currentConcurrentRequests ≥ s.maxConcurrentRequests then
        gateWait n { s with now := s.now + 100 }
      else (.ok (), s) := rfl

/-! ### Propagation of an unfinished computation -/

theorem bind_of_hung (x : M α) (f : α → M β) (s s' : ScraperState)
    (h : x s = (.hung, s')) : M.bind x f s = (.hung, s') := by
  unfold M.bind
  rw [h]

theorem onErr_of_hung (x : M α) (h : CfError → M α) (s s' : ScraperState)
    (hx : x s = (.hung, s')) : M.onErr x h s = (.hung, s') := by
  unfold M.onErr
  rw [hx]

/-- While the in-flight counter saturates the ceiling, the busy-wait of
`_applyRequestThrottling` only advances the clock and never exits. -/
theorem gateWait_spins (s : ScraperState)
    (h : s.maxConcurrentRequests ≤ s.currentConcurrentRequests) :
    ∀ fuel, gateWait fuel s = (.hung, { s with now := s.now + 100 * fuel }) := by
  intro fuel
  induction fuel generalizing s with
  | zero =>
    rw [gateWait_zero, if_pos h]
    simp
  | succ n ih =>
    rw [gateWait_succ, if_pos h, ih { s with now := s.now + 100 } h]
    simp only [Prod.mk.injEq, true_and]
    congr 1
    omega

/-! ### C5 — the alternative evaluators

The claim says selecting `js2py`, `nodejs`, `v8` or `chakracore` through the
factory and invoking `solveChallenge` raises an error and never silently
returns a placeholder.  The stubs in fact warn on the console and resolve
with the placeholder string `'0'` for every input. -/

/-- C5: for every challenge body and domain, each of the four alternative
evaluators selected through the factory resolves `solveChallenge` with the
placeholder answer `'0'` and raises no error — the code contradicts the
claim (and the spec's "fail loudly" requirement). -/
theorem c5_stub_interpreters_return_placeholder (env : Env) (body domain : String) :
    solveWith env (createInterpreter "js2py") body domain = .ok "0" ∧
    solveWith env (createInterpreter "nodejs") body domain = .ok "0" ∧
    solveWith env (createInterpreter "v8") body domain = .ok "0" ∧
    solveWith env (createInterpreter "chakracore") body domain = .ok "0" :=
  ⟨rfl, rfl, rfl, rfl⟩

/-! ### C6 — the server guard -/

/-- C6: whenever the `server` header is absent or does not start with
`cloudflare` (that is, the embedded guard `serverIsCloudflare` is false),
every detector predicate returns false, whatever the status and body. -/
theorem c6_non_cloudflare_never_classified (r : Response)
    (h : serverIsCloudflare r = false) :
    isIUAMChallenge r = false ∧ isCaptchaChallenge r = false ∧
    isNewIUAMChallenge r = false ∧ isNewCaptchaChallenge r = false ∧
    isFirewallBlocked r = false := by
  have hiuam : isIUAMChallenge r = false := by
    unfold isIUAMChallenge
    cases r.body <;> simp [h]
  have hcaptcha : isCaptchaChallenge r = false := by
    unfold isCaptchaChallenge
    cases r.body <;> simp [h]
  refine ⟨hiuam, hcaptcha, ?_, ?_, ?_⟩
  · unfold isNewIUAMChallenge
    simp [hiuam]
  · unfold isNewCaptchaChallenge
    simp [hcaptcha]
  · unfold isFirewallBlocked
    cases r.body <;> simp [h]

/-- C6 witness: a non-Cloudflare response whose body carries every challenge
marker and whose status fits the captcha/firewall detections is still never
classified. -/
theorem c6_witness :
    serverIsCloudflare nonCfMarkers = false ∧
    (isIUAMChallenge nonCfMarkers = false ∧
     isCaptchaChallenge nonCfMarkers = false ∧
     isNewIUAMChallenge nonCfMarkers = false ∧
     isNewCaptchaChallenge nonCfMarkers = false ∧
     isFirewallBlocked nonCfMarkers = false) :=
  ⟨rfl, c6_non_cloudflare_never_classified nonCfMarkers rfl⟩

/-! ### C10 — totality of the detectors

Being Lean functions, the embedded predicates are total by construction; the
`try/catch` of the source is the `body = none` branch of each definition, so
the claim's content is (a) a response without usable data is classified
`false` by all five predicates rather than raising, and (b) a predicate
returns `true` only when all of its documented conditions hold. -/

/-- C10: the detector predicates return false on a response with no usable
body, and return true only when the server guard, the status condition and
the documented body markers all hold. -/
theorem c10_detectors_total_and_sound (r : Response) :
    (r.body = none →
      isIUAMChallenge r = false ∧ isCaptchaChallenge r = false ∧
      isNewIUAMChallenge r = false ∧ isNewCaptchaChallenge r = false ∧
      isFirewallBlocked r = false) ∧
    (isIUAMChallenge r = true →
      serverIsCloudflare r = true ∧ (r.status = 429 ∨ r.status = 503) ∧
      ∃ b, r.body = some b ∧ matchTraceJsch b = true ∧ matchChallengeForm b = true) ∧
    (isCaptchaChallenge r = true →
      serverIsCloudflare r = true ∧ r.status = 403 ∧
      ∃ b, r.body = some b ∧ matchTraceCaptcha b = true ∧ matchChallengeForm b = true) ∧
    (isNewIUAMChallenge r = true →
      isIUAMChallenge r = true ∧ ∃ b, r.body = some b ∧ matchCpoSrcJsch b = true) ∧
    (isNewCaptchaChallenge r = true →
      isCaptchaChallenge r = true ∧ ∃ b, r.body = some b ∧ matchCpoSrcCaptcha b = true) ∧
    (isFirewallBlocked r = true →
      serverIsCloudflare r = true ∧ r.status = 403 ∧
      ∃ b, r.body = some b ∧ matchBlockCode1020 b = true) := by
  refine ⟨?_, ?_, ?_, ?_, ?_, ?_⟩
  · intro hb
    unfold isIUAMChallenge isCaptchaChallenge isNewIUAMChallenge
      isNewCaptchaChallenge isFirewallBlocked
    rw [hb]
    simp
  · intro h
    unfold isIUAMChallenge at h
    rcases hb : r.body with _ | b <;> rw [hb] at h
    · cases h
    · simp only [Bool.and_eq_true, Bool.or_eq_true, decide_eq_true_eq] at h
      exact ⟨h.1.1.1, h.1.1.2, b, rfl, h.1.2, h.2⟩
  · intro h
    unfold isCaptchaChallenge at h
    rcases hb : r.body with _ | b <;> rw [hb] at h
    · cases h
    · simp only [Bool.and_eq_true, decide_eq_true_eq] at h
      exact ⟨h.1.1.1, h.1.1.2, b, rfl, h.1.2, h.2⟩
  · intro h
    unfold isNewIUAMChallenge at h
    simp only [Bool.and_eq_true] at h
    refine ⟨h.1, ?_⟩
    rcases hb : r.body with _ | b <;> rw [hb] at h
    · cases h.2
    · exact ⟨b, rfl, h.2⟩
  · intro h
    unfold isNewCaptchaChallenge at h
    simp only [Bool.and_eq_true] at h
    refine ⟨h.1, ?_⟩
    rcases hb : r.body with _ | b <;> rw [hb] at h
    · cases h.2
    · exact ⟨b, rfl, h.2⟩
  · intro h
    unfold isFirewallBlocked at h
    rcases hb : r.body with _ | b <;> rw [hb] at h
    · cases h
    · simp only [Bool.and_eq_true, decide_eq_true_eq] at h
      exact ⟨h.1.1, h.1.2, b, rfl, h.2⟩

/-- C10 witness: a Cloudflare-served challenge-status response with absent
data is classified false by all five predicates. -/
theorem c10_witness :
    noBodyResp.body = none ∧
    (isIUAMChallenge noBodyResp = false ∧ isCaptchaChallenge noBodyResp = false ∧
     isNewIUAMChallenge noBodyResp = false ∧ isNewCaptchaChallenge noBodyResp = false ∧
     isFirewallBlocked noBodyResp = false) :=
  ⟨rfl, (c10_detectors_total_and_sound noBodyResp).1 rfl⟩

/-! ### C1 — classification order and the firewall block -/

/-- C1: `isFirewallBlocked` holds for every Cloudflare-served 403 whose body
contains the block-code marker, regardless of any other markers present;
`isChallengeRequest` evaluates firewall-block, newer-captcha, newer-JS and
then the legacy detections in this order, raising the dedicated errors for
the first three and returning true into the Resolver only for the legacy
detections; and the Orchestrator surfaces the firewall-block error from a
single dispatch, with no further transport call. -/
theorem c1_firewall_priority_and_order :
    (∀ (r : Response) (b : String), serverIsCloudflare r = true → r.status = 403 →
      r.body = some b → matchBlockCode1020 b = true → isFirewallBlocked r = true) ∧
    (∀ r : Response, isFirewallBlocked r = true →
      isChallengeRequest r = .error (.cloudflareCode1020
        "Cloudflare has blocked this request (Code 1020 Detected).")) ∧
    (∀ r : Response, isFirewallBlocked r = false → isNewCaptchaChallenge r = true →
      isChallengeRequest r = .error (.cloudflareChallengeError
        "Detected a Cloudflare version 2 Captcha challenge, This feature is not available in the opensource (free) version.")) ∧
    (∀ r : Response, isFirewallBlocked r = false → isNewCaptchaChallenge r = false →
      isNewIUAMChallenge r = true →
      isChallengeRequest r = .error (.cloudflareChallengeError
        "Detected a Cloudflare version 2 challenge, This feature is not available in the opensource (free) version.")) ∧
    (∀ r : Response, isFirewallBlocked r = false → isNewCaptchaChallenge r = false →
      isNewIUAMChallenge r = false → (isCaptchaChallenge r = true ∨ isIUAMChallenge r = true) →
      isChallengeRequest r = .ok true) ∧
    (∀ r : Response, isFirewallBlocked r = false → isNewCaptchaChallenge r = false →
      isNewIUAMChallenge r = false → isCaptchaChallenge r = false → isIUAMChallenge r = false →
      isChallengeRequest r = .ok false) ∧
    ((run envFirewall 10 reqGET {}).1 = .err (.cloudflareCode1020
        "Cloudflare has blocked this request (Code 1020 Detected).") ∧
     (run envFirewall 10 reqGET {}).2.transportCalls = 1) := by
  refine ⟨?_, ?_, ?_, ?_, ?_, ?_, rfl, rfl⟩
  · intro r b hs hst hb hm
    unfold isFirewallBlocked
    rw [hb, hs, hst]
    simp [hm]
  · intro r h
    unfold isChallengeRequest
    rw [h]
    simp
  · intro r h1 h2
    unfold isChallengeRequest
    rw [h1, h2]
    simp
  · intro r h1 h2 h3
    unfold isChallengeRequest
    rw [h1, h2, h3]
    simp
  · intro r h1 h2 h3 h4
    unfold isChallengeRequest
    rw [h1, h2, h3]
    rcases h4 with h | h <;> simp [h]
  · intro r h1 h2 h3 h4 h5
    unfold isChallengeRequest
    rw [h1, h2, h3, h4, h5]
    simp

set_option maxRecDepth 100000 in
/-- C1 witness: the firewall-block fixture — whose body also carries the
captcha trace and a challenge form — is detected as firewall-blocked and
classified with the dedicated 1020 error, while the plain challenge fixture
routes into the Resolver. -/
theorem c1_witness :
    isFirewallBlocked fwResp = true ∧
    isChallengeRequest fwResp = .error (.cloudflareCode1020
      "Cloudflare has blocked this request (Code 1020 Detected).") ∧
    isChallengeRequest challengeResp = .ok true :=
  ⟨c1_firewall_priority_and_order.1 fwResp fwBody rfl rfl rfl (by decide),
   c1_firewall_priority_and_order.2.1 fwResp (by decide),
   c1_firewall_priority_and_order.2.2.2.2.1 challengeResp (by decide) (by decide)
     (by decide) (Or.inr (by decide))⟩

/-! ### C8 — the Resolver's payload and submission URL -/

/-- Membership in a JS-object insertion: the element was already present or
carries the inserted key. -/
theorem mem_setKV {m : List (String × String)} {k v : String}
    {kv : String × String} (h : kv ∈ setKV m k v) : kv ∈ m ∨ kv.1 = k := by
  unfold setKV at h
  split at h
  · rcases List.mem_map.mp h with ⟨kv', hmem, heq⟩
    by_cases hk : kv'.1 = k
    · rw [if_pos hk] at heq
      right
      rw [← heq]
    · rw [if_neg hk] at heq
      left
      rw [← heq]
      exact hmem
  · rcases List.mem_append.mp h with h | h
    · exact Or.inl h
    · right
      simp only [List.mem_singleton] at h
      rw [h]

/-- Inserting a key absent from the map appends it. -/
theorem setKV_fresh (m : List (String × String)) (k v : String)
    (h : ∀ kv ∈ m, kv.1 ≠ k) : setKV m k v = m ++ [(k, v)] := by
  unfold setKV
  rw [if_neg]
  simp only [List.any_eq_true, decide_eq_true_eq, not_exists, not_and]
  exact h

/-- Looking up a freshly appended key. -/
theorem lookup_append_fresh (m : List (String × String)) (k v : String)
    (h : ∀ kv ∈ m, kv.1 ≠ k) : (m ++ [(k, v)]).lookup k = some v := by
  induction m with
  | nil => simp [List.lookup]
  | cons a as ih =>
    obtain ⟨a1, a2⟩ := a
    have hk : (k == a1) = false :=
      beq_eq_false_iff_ne.mpr fun he => (h (a1, a2) (by simp)) he.symm
    simp only [List.cons_append, List.lookup, hk]
    exact ih fun kv hkv => h kv (by simp [hkv])

/-- Every entry the input-collection loop produces carries an allow-listed
name. -/
theorem extractPayload_keys (form : List Char) :
    ∀ kv ∈ extractPayload form, kv.1 ∈ allowedInputNames := by
  unfold extractPayload
  generalize scanInputs form = inputs
  have main : ∀ (inputs : List (List Char)) (acc : List (String × String)),
      (∀ kv ∈ acc, kv.1 ∈ allowedInputNames) →
      ∀ kv ∈ inputs.foldl
        (fun payload input =>
          match attrCapture "name=\"".data input,
              attrCapture "value=\"".data input with
          | some n, some v =>
            if allowedInputNames.contains (String.mk n) then
              setKV payload (String.mk n) (String.mk v)
            else payload
          | _, _ => payload) acc, kv.1 ∈ allowedInputNames := by
    intro inputs
    induction inputs with
    | nil =>
      intro acc hacc kv hkv
      exact hacc kv (by simpa using hkv)
    | cons i is ih =>
      intro acc hacc kv hkv
      rw [List.foldl_cons] at hkv
      refine ih _ ?_ kv hkv
      intro kv' hkv'
      rcases hn : attrCapture "name=\"".data i with _ | n <;>
        rcases hv : attrCapture "value=\"".data i with _ | v <;>
        simp only [hn, hv] at hkv'
      · exact hacc kv' hkv'
      · exact hacc kv' hkv'
      · exact hacc kv' hkv'
      · by_cases hc : allowedInputNames.contains (String.mk n) = true
        · rw [if_pos hc] at hkv'
          rcases mem_setKV hkv' with hm | hk
          · exact hacc kv' hm
          · rw [hk]
            simpa using hc
        · rw [if_neg hc] at hkv'
          exact hacc kv' hkv'
  exact main inputs [] (by intro kv h; cases h)

/-- C8: whenever the Resolver's form extraction succeeds, the challenge
response consists of the solved answer stored under `jschl_answer` next to
only the allow-listed captured fields, and the submission URL is the
original URL's scheme and host concatenated with the HTML-entity-unescaped
form action; when no form matches, a `CloudflareIUAMError` (the
challenge-extraction failure) is raised. -/
theorem c8_resolver_payload_and_url :
    (∀ (env : Env) (body url interp : String) (ef : ExtractedForm)
        (pu : ParsedUrl) (answer : String),
      extractForm body = some ef →
      parseUrl url = some pu →
      solveWith env (createInterpreter interp) body pu.hostname = .ok answer →
      iuamChallengeResponse env body url interp =
        .ok { url := pu.protocol ++ "//" ++ pu.hostname ++
                Cloudflare.unescape (String.mk ef.challengeUUID)
              payload := setKV (extractPayload ef.form) "jschl_answer" answer } ∧
      (setKV (extractPayload ef.form) "jschl_answer" answer).lookup "jschl_answer"
        = some answer ∧
      (∀ kv ∈ setKV (extractPayload ef.form) "jschl_answer" answer,
        kv.1 = "jschl_answer" ∨ kv.1 ∈ allowedInputNames)) ∧
    (∀ (env : Env) (body url interp : String), extractForm body = none →
      iuamChallengeResponse env body url interp = .error (.cloudflareIUAMError
        "Cloudflare IUAM detected, unfortunately we can't extract the parameters correctly.")) := by
  constructor
  · intro env body url interp ef pu answer hef hpu hsolve
    have hfresh : ∀ kv ∈ extractPayload ef.form, kv.1 ≠ "jschl_answer" := by
      intro kv hkv heq
      have := extractPayload_keys ef.form kv hkv
      rw [heq] at this
      simp [allowedInputNames] at this
    refine ⟨?_, ?_, ?_⟩
    · unfold iuamChallengeResponse
      simp only [hef, hpu, hsolve]
    · rw [setKV_fresh _ _ _ hfresh]
      exact lookup_append_fresh _ _ _ hfresh
    · intro kv hkv
      rcases mem_setKV hkv with hm | hk
      · exact Or.inr (extractPayload_keys ef.form kv hm)
      · exact Or.inl hk
  · intro env body url interp hef
    unfold iuamChallengeResponse
    simp only [hef]

set_option maxRecDepth 100000 in
/-- C8 witness: on the challenge fixture at `pageUrl`, with an evaluator that
answers `"42"`, the Resolver produces exactly the three allow-listed fields
plus `jschl_answer`, and the submission URL `https://example.com` ++ the
unescaped action; the `other` input of the fixture is dropped. -/
theorem c8_witness :
    extractForm fixtureBody = some fixtureExtracted ∧
    parseUrl pageUrl = some pageParsed ∧
    iuamChallengeResponse
        { transport := fun _ => .error (.genericError "no transport")
          nativeSolve := fun _ _ => .ok "42" }
        fixtureBody pageUrl "native" =
      .ok { url := pageParsed.protocol ++ "//" ++ pageParsed.hostname ++
              Cloudflare.unescape (String.mk fixtureExtracted.challengeUUID)
            payload := setKV (extractPayload fixtureExtracted.form) "jschl_answer" "42" } ∧
    (setKV (extractPayload fixtureExtracted.form) "jschl_answer" "42").lookup
      "jschl_answer" = some "42" ∧
    setKV (extractPayload fixtureExtracted.form) "jschl_answer" "42" =
      [("r", "rv"), ("jschl_vc", "vcv"), ("pass", "pv"), ("jschl_answer", "42")] := by
  have h := (c8_resolver_payload_and_url.1
    { transport := fun _ => .error (.genericError "no transport")
      nativeSolve := fun _ _ => .ok "42" }
    fixtureBody pageUrl "native" fixtureExtracted pageParsed "42"
    (by decide) (by decide) (by rfl))
  exact ⟨by decide, by decide, h.1, h.2.1, by decide⟩

/-! ### C9 — the cookie-string round trip

The serialisation joins `key=value` pieces with `"; "`.  Splitting it back
reconstructs the map only when neither separator occurs inside the keys and
values; a cookie value containing `=` (or `; `) breaks the round trip. -/

/-- Splitting a `=`-free piece is the identity. -/
theorem splitEq_no_sep (v : List Char) (h : '=' ∉ v) : splitEq v = [v] := by
  induction v with
  | nil => rfl
  | cons c rest ih =>
    have hc : ¬c = '=' := fun e => h (e ▸ List.mem_cons_self c rest)
    rw [splitEq, if_neg hc, ih fun hm => h (List.mem_cons_of_mem _ hm)]

/-- Splitting `key=value` with separator-free parts yields the pair. -/
theorem splitEq_pair (k v : List Char) (hk : '=' ∉ k) (hv : '=' ∉ v) :
    splitEq (k ++ '=' :: v) = [k, v] := by
  induction k with
  | nil =>
    rw [List.nil_append, splitEq, if_pos rfl, splitEq_no_sep v hv]
  | cons c k' ih =>
    have hc : ¬c = '=' := fun e => hk (e ▸ List.mem_cons_self c k')
    rw [List.cons_append, splitEq, if_neg hc,
      ih fun hm => hk (List.mem_cons_of_mem _ hm)]

/-- Splitting a `;`-free piece on `"; "` is the identity. -/
theorem splitSemiSpace_no_sep (p : List Char) (h : ';' ∉ p) :
    splitSemiSpace p = [p] := by
  induction p with
  | nil => rfl
  | cons c rest ih =>
    cases rest with
    | nil => rfl
    | cons d rest2 =>
      have hc : ¬(c = ';' ∧ d = ' ') :=
        fun hcd => h (hcd.1 ▸ List.mem_cons_self c (d :: rest2))
      rw [splitSemiSpace, if_neg hc, ih fun hm => h (List.mem_cons_of_mem _ hm)]

/-- Peeling one `;`-free piece followed by the separator off a split. -/
theorem splitSemiSpace_sep (p t : List Char) (hp : ';' ∉ p) :
    splitSemiSpace (p ++ ';' :: ' ' :: t) = p :: splitSemiSpace t := by
  induction p with
  | nil =>
    rw [List.nil_append, splitSemiSpace, if_pos ⟨rfl, rfl⟩]
  | cons c p' ih =>
    have hc : ¬c = ';' := fun e => hp (e ▸ List.mem_cons_self c p')
    have hp' : ';' ∉ p' := fun hm => hp (List.mem_cons_of_mem _ hm)
    cases p' with
    | nil =>
      rw [List.cons_append, List.nil_append, splitSemiSpace,
        if_neg fun hcd => hc hcd.1]
      have hsep : splitSemiSpace (';' :: ' ' :: t) = [] :: splitSemiSpace t := by
        rw [splitSemiSpace, if_pos ⟨rfl, rfl⟩]
      rw [hsep]
    | cons e p'' =>
      rw [List.cons_append, List.cons_append, splitSemiSpace,
        if_neg fun hcd => hc hcd.1]
      have := ih hp'
      rw [List.cons_append] at this
      rw [this]

/-- Joining `;`-free pieces with `"; "` and splitting again is the identity
on non-empty piece lists. -/
theorem splitSemiSpace_join (parts : List (List Char)) (hne : parts ≠ [])
    (h : ∀ p ∈ parts, ';' ∉ p) :
    splitSemiSpace (joinSemiSpace parts) = parts := by
  induction parts with
  | nil => exact absurd rfl hne
  | cons p ps ih =>
    cases ps with
    | nil =>
      show splitSemiSpace (joinSemiSpace [p]) = [p]
      rw [joinSemiSpace]
      exact splitSemiSpace_no_sep p (h p (List.mem_cons_self p []))
    | cons q qs =>
      show splitSemiSpace (p ++ ';' :: ' ' :: joinSemiSpace (q :: qs)) = p :: q :: qs
      rw [splitSemiSpace_sep p _ (h p (List.mem_cons_self _ _)),
        ih (List.cons_ne_nil q qs) fun x hx => h x (List.mem_cons_of_mem _ hx)]

/-- C9 counterexample: a single cookie whose value contains `=` — the shape
`cf_clearance` values take in the wild — already breaks the round trip: the
serialised header splits into three fields instead of the key-value pair. -/
theorem c9_roundtrip_counterexample :
    reconstructCookies (getCookieStringOfTokens [("cf_clearance", "a=b")]) ≠
      tokensAsSplit [("cf_clearance", "a=b")] := by decide

/-- C9 amended: for every non-empty token map whose keys and values contain
neither `=` nor `;`, splitting `getCookieString`'s serialisation on `"; "`
and then each piece on `"="` reconstructs exactly the map. -/
theorem c9_roundtrip_amended (tokens : List (String × String))
    (hne : tokens ≠ [])
    (hsep : ∀ kv ∈ tokens, '=' ∉ kv.1.data ∧ '=' ∉ kv.2.data ∧
      ';' ∉ kv.1.data ∧ ';' ∉ kv.2.data) :
    reconstructCookies (getCookieStringOfTokens tokens) = tokensAsSplit tokens := by
  show (splitSemiSpace
      (joinSemiSpace (tokens.map fun kv => kv.1.data ++ '=' :: kv.2.data))).map
      (fun piece => (splitEq piece).map String.mk) =
    tokens.map fun kv => [kv.1, kv.2]
  rw [splitSemiSpace_join _ (by simpa using hne) ?hsemi]
  case hsemi =>
    intro p hp
    rcases List.mem_map.mp hp with ⟨kv, hkv, rfl⟩
    intro hmem
    rcases List.mem_append.mp hmem with hm | hm
    · exact (hsep kv hkv).2.2.1 hm
    · rcases List.mem_cons.mp hm with he | hm
      · cases he
      · exact (hsep kv hkv).2.2.2 hm
  rw [List.map_map]
  refine List.map_congr_left ?_
  intro kv hkv
  show (splitEq (kv.1.data ++ '=' :: kv.2.data)).map String.mk = [kv.1, kv.2]
  rw [splitEq_pair _ _ (hsep kv hkv).1 (hsep kv hkv).2.1]
  rfl

/-- C9 amended witness: two separator-free Cloudflare cookies round-trip. -/
theorem c9_roundtrip_amended_witness :
    reconstructCookies
        (getCookieStringOfTokens [("cf_clearance", "abc"), ("cf_chl_2", "xyz")]) =
      tokensAsSplit [("cf_clearance", "abc"), ("cf_chl_2", "xyz")] :=
  c9_roundtrip_amended [("cf_clearance", "abc"), ("cf_chl_2", "xyz")]
    (by decide) (by decide)

/-! ### C3 — the 403-retry scenario

With `max403Retries = 2` and a transport answering 403 on every call, the
refresh probe included, `_handle403Error` increments the retry counter,
attempts one session refresh, and — the refresh having failed — returns the
original 403 immediately; the remaining retry is never consumed, so exactly
one refresh attempt is made, not two. -/

set_option maxRecDepth 100000 in
/-- C3 counterexample: the all-403 scenario performs one session-refresh
attempt, not two (and more fuel cannot change a terminated run). -/
theorem c3_refresh_twice_counterexample :
    (run env403Only 20 reqGET stRetry2).2.refreshAttempts ≠ 2 := by decide

set_option maxRecDepth 100000 in
/-- C3 amended: with `max403Retries = 2` and an all-403 transport, one
logical request performs exactly one session-refresh attempt (two transport
calls in all: the original dispatch and the refresh probe to the URL's
origin), after which the original 403 response is returned unchanged; the
retry counter is observably 0 before the first 403, is 1 — not reset —
afterwards, and the in-flight counter is balanced on this exit path. -/
theorem c3_one_refresh_then_403_returned :
    (run env403Only 20 reqGET stRetry2).1 =
      .ok { resp403 with cfgMethod := "GET", cfgUrl := pageUrl } ∧
    (run env403Only 20 reqGET stRetry2).2.refreshAttempts = 1 ∧
    (run env403Only 20 reqGET stRetry2).2.dispatchLog =
      [{ method := "GET", url := "https://example.com", config := {} }, dispatchGET] ∧
    stRetry2.retry403Count = 0 ∧
    (run env403Only 20 reqGET stRetry2).2.retry403Count = 1 ∧
    (run env403Only 20 reqGET stRetry2).2.currentConcurrentRequests = 0 :=
  ⟨by rfl, by rfl, by rfl, by rfl, by rfl, by rfl⟩

/-! ### C4 — the in-flight counter on the challenge-resolution exit path

`handleCloudflareChallenges` returns `challengeResponse(...)` without
decrementing `currentConcurrentRequests`, so when a resolved challenge is
returned as the final response the counter ends one above its pre-call
value.  (`maxConcurrentRequests` is 2 here so that the nested resubmission
can pass the concurrency gate at all; under the default of 1 it busy-waits
forever, see C2.) -/

set_option maxRecDepth 100000 in
/-- C4: a request whose challenge is resolved and whose resubmission answer
is returned as the final response leaves `currentConcurrentRequests` at 1
although it was 0 before the call — the increment performed at dispatch is
never undone on this exit path. -/
theorem c4_counter_leak_on_challenge_exit :
    stMaxCc2.currentConcurrentRequests = 0 ∧
    (run envChallengeThen200 20 reqGET stMaxCc2).1 =
      .ok { plain200 with cfgMethod := "POST", cfgUrl := submitUrlStr } ∧
    (run envChallengeThen200 20 reqGET stMaxCc2).2.currentConcurrentRequests = 1 :=
  ⟨by rfl, by rfl, by rfl⟩

/-! ### C7 — handling of the resubmission response -/

set_option maxRecDepth 100000 in
/-- C7: after the challenge answer is resubmitted — (a) a 400 resubmission
status raises `CloudflareSolveError`; (b) a resubmission response without a
redirect Location is returned as the final response; (c) a Location header
triggers a follow-up request with the original request's method (`GET`, not
the resubmission's `POST`), a Referer updated to the submission URL, and the
relative Location resolved against the submission URL. -/
theorem c7_resubmission_handling :
    (run envChallengeThen400 20 reqGET stMaxCc2).1 =
      .err (.cloudflareSolveError "Invalid challenge answer detected, Cloudflare broken?") ∧
    (run envChallengeThen200 20 reqGET stMaxCc2).1 =
      .ok { plain200 with cfgMethod := "POST", cfgUrl := submitUrlStr } ∧
    resolveUrl "/next" submitUrlStr = some "https://example.com/next" ∧
    (run envChallengeThen302 20 reqGET stMaxCc2).1 =
      .ok { plain200 with cfgMethod := "GET", cfgUrl := "https://example.com/next" } ∧
    (run envChallengeThen302 20 reqGET stMaxCc2).2.dispatchLog =
      [{ method := "GET", url := "https://example.com/next"
         config := { headers := [("Referer", submitUrlStr)] } },
       { method := "POST", url := submitUrlStr, config := challengeCfg },
       dispatchGET] :=
  ⟨by rfl, by rfl, by rfl, by rfl, by rfl⟩

/-! ### C2 — loop protection under the default configuration

Under the defaults (`maxConcurrentRequests = 1`) the outer request holds the
single concurrency slot while `challengeResponse` re-enters
`CloudScraper.request` for the resubmission; `_applyRequestThrottling` of
that nested request then busy-waits on
`currentConcurrentRequests >= maxConcurrentRequests` with nothing left to
decrement the counter, so the Orchestrator never reaches a second
classification and `CloudflareLoopProtection` is never thrown.  The chain of
lemmas below walks the hang outward layer by layer. -/

/-- The nested resubmission request's throttling gate spins forever. -/
theorem throttle_hangs_at_gate (n : Nat) :
    applyRequestThrottling n stNested = (.hung, stSpinning n) := by
  have e : applyRequestThrottling n stNested =
      M.bind (gateWait n)
        (fun _ => M.modify fun s => { s with lastRequestTime := s.now })
        stAtGate := rfl
  rw [e]
  exact bind_of_hung _ _ _ _ (gateWait_spins stAtGate (by decide) n)

/-- The nested resubmission request never finishes, whatever the fuel. -/
theorem nested_request_hangs (n : Nat) :
    run envChallengeOnly (n + 1) rqPOST stNested = (.hung, stSpinning n) :=
  bind_of_hung (applyRequestThrottling n) _ stNested (stSpinning n)
    (throttle_hangs_at_gate n)

set_option maxRecDepth 100000 in
/-- `challengeResponse` on the challenge fixture never finishes: it blocks
inside its resubmission request. -/
theorem challenge_respond_hangs (n : Nat) :
    run envChallengeOnly (n + 2)
      (.challengeRespond { challengeResp with cfgMethod := "GET", cfgUrl := pageUrl } {})
      stNested = (.hung, stSpinning n) :=
  bind_of_hung (run envChallengeOnly (n + 1) rqPOST) _ stNested (stSpinning n)
    (nested_request_hangs n)

set_option maxRecDepth 100000 in
/-- `handleCloudflareChallenges` on the first challenge response never
finishes (it tail-calls into `challengeResponse`). -/
theorem handle_challenges_hangs (n : Nat) :
    run envChallengeOnly (n + 3)
      (.handleChallenges { challengeResp with cfgMethod := "GET", cfgUrl := pageUrl }
        "GET" pageUrl {})
      { requestCount := 1
        lastRequestTime := 1000
        currentConcurrentRequests := 1
        cipherRotationCount := 1
        now := 1000
        transportCalls := 1
        dispatchLog := [dispatchGET] } = (.hung, stSpinning n) :=
  challenge_respond_hangs n

set_option maxRecDepth 100000 in
/-- C2: with the default configuration (`solveDepth = 3`,
`maxConcurrentRequests = 1`) and a transport that classifies as a legacy-JS
challenge on every call, the logical request never terminates — for every
fuel the run is still unfinished — and at the point where it starts spinning
on the concurrency gate exactly one challenge-resolution attempt has been
performed; `CloudflareLoopProtection` with count `solveDepth` is never
raised.  (Raising the ceiling so the gate cannot saturate — here
`maxConcurrentRequests = 4` — the intended behaviour does appear: exactly
`solveDepth = 3` resolution attempts, then `CloudflareLoopProtection`
reporting 3.) -/
theorem c2_loop_protection_never_fires :
    (∀ fuel, (run envChallengeOnly fuel reqGET {}).1 = .hung) ∧
    (∀ n, run envChallengeOnly (n + 4) reqGET {} = (.hung, stSpinning n)) ∧
    (∀ n, (run envChallengeOnly (n + 4) reqGET {}).2.solveAttempts = 1) ∧
    ((run envChallengeOnly 20 reqGET stMaxCc4).1 =
      .err (.cloudflareLoopProtection (loopProtectionMsg 3) 3) ∧
     (run envChallengeOnly 20 reqGET stMaxCc4).2.solveAttempts = 3 ∧
     stMaxCc4.solveDepth = 3) := by
  have houter : ∀ n, run envChallengeOnly (n + 4) reqGET {} = (.hung, stSpinning n) := by
    intro n
    refine onErr_of_hung _ _ _ _ ?_
    exact handle_challenges_hangs n
  refine ⟨?_, houter, fun n => by rw [houter n]; rfl, by rfl, by rfl, by rfl⟩
  intro fuel
  match fuel with
  | 0 => rfl
  | 1 => rfl
  | 2 => rfl
  | 3 => rfl
  | n + 4 => rw [houter n]

end CloudscraperTs
